import Mathlib

/-!
Shallow embedding of the sanityml scanner (src/src/sanityml/core.py and
src/src/cli.py).  Pure logic is translated directly; filesystem reads,
JSON parsing and subprocess execution are abstracted into explicit input
values (a parsed notebook document, a subprocess outcome, a file listing),
so every definition is executable.
-/

set_option maxHeartbeats 1000000

namespace SanityML

/-- Characters treated as line boundaries by Python str.splitlines. -/
def isLineBreak (c : Char) : Bool :=
  c = '\n' || c = '\r' || c = '\x0b' || c = '\x0c' ||
  c = '\x1c' || c = '\x1d' || c = '\x1e' || c = '\x85' ||
  c = '\u2028' || c = '\u2029'

/-- Helper for str.splitlines(keepends=True): walks the characters, keeping the
current (reversed) line in acc; "\r\n" counts as a single boundary. -/
def splitlinesKeepAux : List Char → List Char → List (List Char)
  | [], acc => if acc.isEmpty then [] else [acc.reverse]
  | '\r' :: '\n' :: rest, acc => (acc.reverse ++ ['\r', '\n']) :: splitlinesKeepAux rest []
  | '\r' :: rest, acc => (acc.reverse ++ ['\r']) :: splitlinesKeepAux rest []
  | c :: rest, acc =>
    if isLineBreak c then (acc.reverse ++ [c]) :: splitlinesKeepAux rest []
    else splitlinesKeepAux rest (c :: acc)

/-- Python str.splitlines(keepends=True). -/
def pySplitlinesKeepends (s : String) : List String :=
  (splitlinesKeepAux s.data []).map fun l => String.mk l

/-- Removes one trailing line-break sequence from a line. -/
def stripLineEnd (l : List Char) : List Char :=
  match l.reverse with
  | '\n' :: '\r' :: rest => rest.reverse
  | c :: rest => if isLineBreak c then rest.reverse else l
  | [] => l

/-- Python str.splitlines() (without keepends). -/
def pySplitlines (s : String) : List String :=
  (splitlinesKeepAux s.data []).map fun l => String.mk (stripLineEnd l)

/-- Python sep.join(xs). -/
def pyJoin (sep : String) : List String → String
  | [] => ""
  | [x] => x
  | x :: xs => x ++ sep ++ pyJoin sep xs

/-- Characters Python str.strip() removes (ASCII whitespace range plus the
common Unicode space and line separators). -/
def isPySpace (c : Char) : Bool :=
  c = ' ' || c = '\t' || c = '\n' || c = '\r' || c = '\x0b' || c = '\x0c' ||
  c = '\x1c' || c = '\x1d' || c = '\x1e' || c = '\x1f' || c = '\x85' ||
  c = '\xa0' || c = '\u2028' || c = '\u2029' || c = '\u3000'

/-- Python str.strip(): drops leading and trailing whitespace. -/
def pyStrip (s : String) : String :=
  String.mk (((s.data.dropWhile isPySpace).reverse.dropWhile isPySpace).reverse)

/-- Whether the pattern (first argument) is an initial segment of the list. -/
def listStartsWith : List Char → List Char → Bool
  | [], _ => true
  | _ :: _, [] => false
  | a :: as, b :: bs => a == b && listStartsWith as bs

/-- Python s.startswith(pat). -/
def pyStartswith (s pat : String) : Bool :=
  listStartsWith pat.data s.data

/-- Python s.endswith(pat). -/
def pyEndswith (s pat : String) : Bool :=
  listStartsWith pat.data.reverse s.data.reverse

/-- The single normalized conversion error: the RuntimeError raised by
notebook_to_python carries the notebook name and a description of the
underlying failure, never the original exception itself. -/
structure ConvError where
  notebook : String
  info : String
  deriving DecidableEq

/-- A cell's "source" entry: a multi-line string, a list of lines, or any
other JSON value (which the extractor skips). -/
inductive CellSource where
  | str (s : String)
  | lst (ls : List String)
  | other
  deriving DecidableEq

/-- One notebook cell: its "cell_type" entry and its "source" entry. -/
structure Cell where
  cell_type : String
  source : CellSource
  deriving DecidableEq

/-- The result of reading and JSON-parsing the notebook file: parseError covers
json.loads failures and documents without a usable top-level structure. -/
inductive NotebookDoc where
  | parseError
  | doc (cells : List Cell)
  deriving DecidableEq

/-- line.strip() nonempty and not line.strip().startswith("#"). -/
def lineIsCode (l : String) : Bool :=
  pyStrip l != "" && !(pyStartswith (pyStrip l) "#")

/-- Normalization of a code cell's source into lines: a string is split with
splitlines(keepends=True), a list is used as is, anything else makes the
extractor skip the cell (the `continue` branch). -/
def cellLines : CellSource → Option (List String)
  | .str s => some (pySplitlinesKeepends s)
  | .lst ls => some ls
  | .other => none

/-- The source's test for emitting a cell: type "code", usable source, and
`lines and any(line.strip() and not line.strip().startswith("#") ...)`. -/
def cellQualifies (c : Cell) : Bool :=
  c.cell_type == "code" &&
    match cellLines c.source with
    | some lines => !lines.isEmpty && lines.any lineIsCode
    | none => false

/-- Renders the body written for the cells starting at 0-based position i;
the Bool is the final value of code_found. -/
def convertCells : Nat → List Cell → String × Bool
  | _, [] => ("", false)
  | i, c :: rest =>
    let tailRes := convertCells (i + 1) rest
    if cellQualifies c then
      match cellLines c.source with
      | some lines =>
        ("\n# --- Cell " ++ toString (i + 1) ++ " ---\n" ++ String.join lines ++ "\n"
          ++ tailRes.1, true)
      | none => tailRes
    else tailRes

/-- notebook_to_python: returns the full file content written on success; the
error value models the normalized RuntimeError.  Reading and JSON-parsing the
notebook file are abstracted into the NotebookDoc input. -/
def notebook_to_python (name : String) (nb : NotebookDoc) : Except ConvError String :=
  match nb with
  | .parseError => .error ⟨name, "JSONDecodeError: expecting value"⟩
  | .doc cells =>
    if cells.isEmpty then .error ⟨name, "ValueError: No cells in notebook"⟩
    else
      let res := convertCells 0 cells
      if res.2 then .ok ("# Converted from " ++ name ++ "\n" ++ res.1)
      else .error ⟨name, "ValueError: No executable code in notebook"⟩

/-- The extractor's failure condition exactly as claim C5 words it: unparseable,
zero cells, or no cell (of any type) containing a non-blank line whose stripped
content does not start with "#". -/
def claimC5FailCond : NotebookDoc → Bool
  | .parseError => true
  | .doc cells =>
    cells.isEmpty ||
      cells.all fun c =>
        match cellLines c.source with
        | some lines => lines.all fun l => !(lineIsCode l)
        | none => true

/-- The extractor's failure condition restricted to cells of type "code", as the
source implements it: unparseable, zero cells, or no qualifying code cell. -/
def codeFailCond : NotebookDoc → Bool
  | .parseError => true
  | .doc cells => cells.isEmpty || cells.all fun c => !(cellQualifies c)

/-- Rewrites a cell whose source is a multi-line string into the equivalent
list-of-lines representation. -/
def toListRep (c : Cell) : Cell :=
  match c.source with
  | .str s => ⟨c.cell_type, .lst (pySplitlinesKeepends s)⟩
  | _ => c

/-- Applies a cell rewrite to every cell of a document. -/
def mapDoc (f : Cell → Cell) : NotebookDoc → NotebookDoc
  | .parseError => .parseError
  | .doc cells => .doc (cells.map f)

/-- What subprocess.run did, abstracted into a value: normal completion with the
captured streams and return code, or one of the exceptions run_tool catches. -/
inductive SubprocessOutcome where
  | completed (stdout stderr : String) (returncode : Int)
  | fileNotFound
  | timeoutExpired
  | otherError (msg : String)
  deriving DecidableEq

/-- run_tool: the subprocess's behavior is passed as a parameter; the timeout
only selects which outcome occurs and is otherwise unused, as in the source. -/
def run_tool (cmd : List String) (_timeout : Nat) (res : SubprocessOutcome) :
    String × Int :=
  match res with
  | .completed out err rc =>
    let stdout := pyStrip out
    let stderr := pyStrip err
    let output := if stdout = "" then stderr else stdout
    (output, rc)
  | .fileNotFound =>
    let cmd_name := cmd.headD ""
    ("'" ++ cmd_name ++ "' not found. Try: `pip install " ++ cmd_name ++ "`", -1)
  | .timeoutExpired => ("timed out", -1)
  | .otherError m => ("unexpected error: " ++ m, -1)

/-- str(e) for the RuntimeError raised by notebook_to_python. -/
def convErrorMessage (e : ConvError) : String :=
  "Conversion failed for " ++ e.notebook ++ ": " ++ e.info

/-- os.stat().st_size of the extracted file: the UTF-8 byte size of its content. -/
def extractedSize (content : String) : Nat := content.utf8ByteSize

/-- The error message scan_notebooks records for a notebook, when its
conversion fails. -/
def conversionErrorOf (nb : String × NotebookDoc) : Option String :=
  match notebook_to_python nb.1 nb.2 with
  | .error e => some (convErrorMessage e)
  | .ok _ => none

/-- Whether a notebook's conversion succeeded and left a file bigger than the
30-byte threshold (py_path.exists() and py_path.stat().st_size > 30). -/
def scannablePred (nb : String × NotebookDoc) : Bool :=
  match notebook_to_python nb.1 nb.2 with
  | .ok content => decide (30 < extractedSize content)
  | .error _ => false

/-- scan_notebooks: the notebooks are given as (name, parsed document) pairs and
the bandit invocation's result is passed as toolResult; the temporary directory
is process-local state not modeled.  Returns (output, code, errors). -/
def scan_notebooks (batch : List (String × NotebookDoc)) (toolResult : String × Int) :
    String × Int × List String :=
  if batch.isEmpty then ("⏩ No notebooks to scan", 0, [])
  else
    let errors := batch.filterMap conversionErrorOf
    let scannable := batch.filter scannablePred
    let error_summary := pyJoin "\n" (errors.map fun err => "⚠ " ++ err)
    if !scannable.isEmpty then
      (pyStrip (error_summary ++ "\n" ++ toolResult.1), toolResult.2, errors)
    else if errors.isEmpty then ("⚠ No executable code in notebooks", 0, [])
    else (error_summary, 0, errors)

/-- The value _print_scan_section returns: none models the early bare return
(Python None) taken when the output splits into no lines; the printing itself
is I/O and not modeled. -/
def printScanSection (output : String) (code : Int) : Option (Bool × Bool) :=
  let lines := if output = "" then [] else pySplitlines output
  if lines.isEmpty then none
  else some (code == 1, decide (2 ≤ code))

/-- main's per-category loop: accumulates any_issue and any_error across the
scanned categories' (output, code) outcomes and produces the final exit code;
none models the uncaught TypeError raised when unpacking a None section result. -/
def categoriesExit : List (String × Int) → Bool → Bool → Option Nat
  | [], any_issue, any_error => some (if any_issue || any_error then 1 else 0)
  | (output, code) :: rest, any_issue, any_error =>
    match printScanSection output code with
    | none => none
    | some flags => categoriesExit rest (any_issue || flags.1) (any_error || flags.2)

/-- The process exit code main computes from the scanned categories' outcomes
(initial accumulators false); none models a crash before sys.exit. -/
def mainExit (results : List (String × Int)) : Option Nat :=
  categoriesExit results false false

/-- main's category selection from the CLI flags; the full flag is accepted by
the option parser but never read by the selection logic. -/
def selectCategories (full python notebooks deps models : Bool) :
    Bool × Bool × Bool × Bool :=
  let any_granular := python || notebooks || deps || models
  (python || !any_granular, notebooks || !any_granular,
    deps || !any_granular, models || !any_granular)

/-- A filesystem path split into its parent directory components and final name. -/
structure NbPath where
  dirs : List String
  base : String
  deriving DecidableEq

/-- Path.stem: the final component minus its last suffix; pathlib only strips a
suffix whose dot sits strictly inside the name. -/
def pyStem (name : String) : String :=
  let cs := name.data
  let n := cs.length
  match cs.reverse.findIdx? (fun c => c == '.') with
  | none => name
  | some j =>
    let i := n - 1 - j
    if 0 < i ∧ i + 1 < n then String.mk (cs.take i) else name

/-- Path.parent.name: the last directory component ("" at the root). -/
def parentName (p : NbPath) : String := p.dirs.getLastD ""

/-- The temporary extraction file name scan_notebooks derives for a notebook:
its stem, an underscore, its parent directory's name, and ".py". -/
def derivedName (p : NbPath) : String :=
  pyStem p.base ++ "_" ++ parentName p ++ ".py"

/-- The dict discover_targets builds: a missing key is none, the requirements
key itself holds an optional path. -/
structure DiscoveryResult where
  py_files : Option (List String)
  notebooks : Option (List String)
  requirements : Option (Option String)
  models : Option (List String)
  deriving DecidableEq

/-- The fixed extension set of the model category. -/
def modelExtensions : List String :=
  [".pt", ".pth", ".pkl", ".joblib", ".h5", ".safetensors"]

/-- Whether a path matches one of the model globs. -/
def matchesModelExt (p : String) : Bool :=
  modelExtensions.any fun ext => pyEndswith p ext

/-- Python sorted() over path strings. -/
def sortPaths (l : List String) : List String :=
  List.insertionSort (fun a b => a ≤ b) l

/-- discover_targets over a listing fs of the regular files under the target
root, as root-relative path strings ("/"-separated).  rglob("*.ext") keeps the
files whose name ends in ".ext"; the set comprehension over the model globs is
filter followed by dedup; the requirements entry requires the fixed name
directly under the root. -/
def discover_targets (fs : List String)
    (scan_notebooks scan_python scan_deps scan_models : Bool) : DiscoveryResult :=
  { py_files :=
      if scan_python then some (sortPaths (fs.filter fun p => pyEndswith p ".py"))
      else none
    notebooks :=
      if scan_notebooks then some (sortPaths (fs.filter fun p => pyEndswith p ".ipynb"))
      else none
    requirements :=
      if scan_deps then
        some (if "requirements.txt" ∈ fs then some "requirements.txt" else none)
      else none
    models :=
      if scan_models then some (sortPaths ((fs.filter matchesModelExt).dedup))
      else none }

/-- A discovery list is well-formed for a suffix check: lexicographically
sorted, duplicate-free, and every entry passes the check.  An absent key is
trivially fine. -/
def goodList (check : String → Bool) : Option (List String) → Prop
  | none => True
  | some l => l.Sorted (fun a b => a ≤ b) ∧ l.Nodup ∧ ∀ p ∈ l, check p = true

/-- Whether the pattern occurs as a contiguous run of the list. -/
def listContains : List Char → List Char → Bool
  | [], pat => pat.isEmpty
  | c :: rest, pat => listStartsWith pat (c :: rest) || listContains rest pat

/-- Python pat in s. -/
def pyContains (s pat : String) : Bool :=
  listContains s.data pat.data

/-! ### Helper lemmas -/

theorem listStartsWith_append_self (p rest : List Char) :
    listStartsWith p (p ++ rest) = true := by
  induction p with
  | nil => rfl
  | cons a as ih => simp [listStartsWith, ih]

theorem listContains_of_startsWith (l pat : List Char)
    (h : listStartsWith pat l = true) : listContains l pat = true := by
  cases l with
  | nil =>
    cases pat with
    | nil => rfl
    | cons a as => simp [listStartsWith] at h
  | cons c rest => simp [listContains, h]

theorem listContains_append_left :
    ∀ (pre l pat : List Char), listContains l pat = true → listContains (pre ++ l) pat = true := by
  intro pre
  induction pre with
  | nil => intro l pat h; simpa using h
  | cons c cs ih =>
    intro l pat h
    simp only [List.cons_append, listContains, Bool.or_eq_true]
    exact Or.inr (ih l pat h)

theorem listContains_spot (pre pat post : List Char) :
    listContains (pre ++ (pat ++ post)) pat = true :=
  listContains_append_left pre _ _
    (listContains_of_startsWith _ _ (listStartsWith_append_self pat post))

theorem strAppend_assoc (a b c : String) : (a ++ b) ++ c = a ++ (b ++ c) :=
  String.ext (by simp [String.data_append, List.append_assoc])

theorem data_ne_nil_of_ne_empty (s : String) (h : s ≠ "") : s.data ≠ [] := by
  intro hd
  exact h (String.ext (by simpa using hd))

theorem append_ne_empty_left (a b : String) (ha : a ≠ "") : a ++ b ≠ "" := by
  intro h
  have hd : (a ++ b).data = ("" : String).data := by rw [h]
  rw [String.data_append] at hd
  exact data_ne_nil_of_ne_empty a ha (List.append_eq_nil.mp hd).1

theorem pyJoin_ne_empty (sep x : String) (xs : List String) (hx : x ≠ "") :
    pyJoin sep (x :: xs) ≠ "" := by
  cases xs with
  | nil => simpa [pyJoin] using hx
  | cons y ys =>
    simp only [pyJoin]
    exact append_ne_empty_left _ _ (append_ne_empty_left _ _ hx)

theorem splitlinesKeepAux_ne_nil :
    ∀ (cs acc : List Char), cs ≠ [] ∨ acc ≠ [] → splitlinesKeepAux cs acc ≠ [] := by
  intro cs acc
  induction cs, acc using splitlinesKeepAux.induct with
  | case1 acc hacc =>
    intro h
    rcases h with h | h
    · exact absurd rfl h
    · exact absurd (List.isEmpty_iff.mp hacc) h
  | case2 acc hacc =>
    intro _
    simp [splitlinesKeepAux.eq_1, hacc]
  | case3 rest acc ih =>
    intro _
    simp [splitlinesKeepAux.eq_2]
  | case4 rest acc h1 ih =>
    intro _
    simp [splitlinesKeepAux.eq_3 acc rest h1]
  | case5 c rest acc h1 h2 hbrk ih =>
    intro _
    simp [splitlinesKeepAux.eq_4 acc c rest h1 h2, hbrk]
  | case6 c rest acc h1 h2 hbrk ih =>
    intro _
    rw [splitlinesKeepAux.eq_4 acc c rest h1 h2, if_neg hbrk]
    exact ih (Or.inr (by simp))

theorem pySplitlines_ne_nil (s : String) (h : s ≠ "") : pySplitlines s ≠ [] := by
  unfold pySplitlines
  intro hmap
  exact splitlinesKeepAux_ne_nil s.data [] (Or.inl (data_ne_nil_of_ne_empty s h))
    (List.map_eq_nil_iff.mp hmap)

theorem printScanSection_of_ne_empty (output : String) (code : Int) (h : output ≠ "") :
    printScanSection output code = some (code == 1, decide (2 ≤ code)) := by
  unfold printScanSection
  rw [if_neg h]
  simp [List.isEmpty_iff, pySplitlines_ne_nil output h]

theorem categoriesExit_closed :
    ∀ (results : List (String × Int)) (ai ae : Bool), (∀ r ∈ results, r.1 ≠ "") →
      categoriesExit results ai ae =
        some (if ai || ae || results.any (fun r => r.2 == 1 || decide (2 ≤ r.2))
              then 1 else 0) := by
  intro results
  induction results with
  | nil => intro ai ae _; simp [categoriesExit]
  | cons r rest ih =>
    intro ai ae h
    obtain ⟨output, code⟩ := r
    have h1 : output ≠ "" := h (output, code) (List.mem_cons_self _ _)
    simp only [categoriesExit, printScanSection_of_ne_empty output code h1]
    rw [ih _ _ fun x hx => h x (List.mem_cons_of_mem _ hx)]
    simp only [List.any_cons]
    have hcond : ∀ x y z w v : Bool, (x || y || (z || w) || v) = (x || z || (y || w || v)) := by
      decide
    rw [hcond]

theorem cellLines_toListRep (c : Cell) : cellLines (toListRep c).source = cellLines c.source := by
  obtain ⟨t, s⟩ := c
  cases s <;> rfl

theorem cellType_toListRep (c : Cell) : (toListRep c).cell_type = c.cell_type := by
  obtain ⟨t, s⟩ := c
  cases s <;> rfl

theorem cellQualifies_toListRep (c : Cell) : cellQualifies (toListRep c) = cellQualifies c := by
  unfold cellQualifies
  rw [cellLines_toListRep, cellType_toListRep]

theorem convertCells_map_toListRep :
    ∀ (cells : List Cell) (i : Nat), convertCells i (cells.map toListRep) = convertCells i cells := by
  intro cells
  induction cells with
  | nil => intro i; rfl
  | cons c rest ih =>
    intro i
    simp only [List.map_cons, convertCells, ih, cellQualifies_toListRep, cellLines_toListRep]

theorem convertCells_found :
    ∀ (cells : List Cell) (i : Nat), (convertCells i cells).2 = cells.any cellQualifies := by
  intro cells
  induction cells with
  | nil => intro i; rfl
  | cons c rest ih =>
    intro i
    simp only [convertCells, List.any_cons]
    by_cases hq : cellQualifies c = true
    · rw [if_pos hq]
      cases hl : cellLines c.source with
      | some lines => simp [hq]
      | none =>
        exfalso
        unfold cellQualifies at hq
        rw [hl] at hq
        simp at hq
    · rw [if_neg hq]
      simp only [ih, Bool.eq_false_iff.mpr hq, Bool.false_or]

theorem concat_underscore_inj_right (s a b : String)
    (h : s ++ "_" ++ a ++ ".py" = s ++ "_" ++ b ++ ".py") : a = b := by
  have hd := congrArg String.data h
  simp only [String.data_append] at hd
  exact String.ext (List.append_cancel_left (List.append_cancel_right hd))

theorem concat_underscore_inj_left (a b p : String)
    (h : a ++ "_" ++ p ++ ".py" = b ++ "_" ++ p ++ ".py") : a = b := by
  have hd := congrArg String.data h
  simp only [String.data_append] at hd
  exact String.ext
    (List.append_cancel_right (List.append_cancel_right (List.append_cancel_right hd)))

theorem isEmpty_map (f : Cell → Cell) (l : List Cell) : (l.map f).isEmpty = l.isEmpty := by
  cases l <;> rfl

theorem all_not_eq_not_any (l : List Cell) (p : Cell → Bool) :
    (l.all fun c => !(p c)) = !(l.any p) := by
  induction l with
  | nil => rfl
  | cons c cs ih => simp [List.all_cons, List.any_cons, ih]

theorem goodList_sortPaths_filter (check : String → Bool) (fs : List String)
    (hfs : fs.Nodup) : goodList check (some (sortPaths (fs.filter check))) := by
  unfold goodList sortPaths
  refine ⟨List.sorted_insertionSort _ _, ?_, ?_⟩
  · exact (List.perm_insertionSort _ _).nodup_iff.mpr (hfs.filter check)
  · intro p hp
    exact (List.mem_filter.mp ((List.mem_insertionSort _).mp hp)).2

theorem goodList_sortPaths_dedup (check : String → Bool) (fs : List String) :
    goodList check (some (sortPaths ((fs.filter check).dedup))) := by
  unfold goodList sortPaths
  refine ⟨List.sorted_insertionSort _ _, ?_, ?_⟩
  · exact (List.perm_insertionSort _ _).nodup_iff.mpr (List.nodup_dedup _)
  · intro p hp
    exact (List.mem_filter.mp (List.mem_dedup.mp ((List.mem_insertionSort _).mp hp))).2

theorem notebook_to_python_of_ne_empty (name : String) (cells : List Cell)
    (h : cells.isEmpty = false) :
    notebook_to_python name (.doc cells) =
      if cells.any cellQualifies
      then .ok ("# Converted from " ++ name ++ "\n" ++ (convertCells 0 cells).1)
      else .error ⟨name, "ValueError: No executable code in notebook"⟩ := by
  simp only [notebook_to_python, h, Bool.false_eq_true, if_false, convertCells_found]

/-! ### Claim theorems -/

/-- C1, counterexample: a category whose status is the Tool Runner's -1
sentinel (here, a timeout) is classified as neither an issue nor a tool error
by _print_scan_section, and the run's final exit code is 0, not 1. -/
theorem c1_sentinel_counterexample :
    run_tool ["bandit"] 120 SubprocessOutcome.timeoutExpired = ("timed out", -1)
    ∧ printScanSection "timed out" (-1) = some (false, false)
    ∧ mainExit [("timed out", -1)] = some 0 := by
  decide

/-- C1, amended: only a status of exactly 1 counts as an issue and only a
status >= 2 counts as a tool error — the -1 sentinel counts as neither — and,
provided every scanned category printed a nonempty output, the final process
exit code is 1 when some category's status is exactly 1 or >= 2, else 0. -/
theorem c1_exit_code (results : List (String × Int))
    (h : ∀ r ∈ results, r.1 ≠ "") :
    mainExit results =
      some (if results.any (fun r => r.2 == 1 || decide (2 ≤ r.2)) then 1 else 0) := by
  unfold mainExit
  rw [categoriesExit_closed results false false h]
  simp only [Bool.false_or]

/-- C1, witness: a run with one issue category, one sentinel category and one
erroring category exits 1. -/
theorem c1_exit_code_witness :
    mainExit [("issues found", 1), ("timed out", -1), ("crash", 2)] = some 1 :=
  (c1_exit_code [("issues found", 1), ("timed out", -1), ("crash", 2)]
    (by decide)).trans (by decide)

/-- C2, failing input: a tool that completes normally with empty stdout and
stderr makes run_tool return ("", 0); _print_scan_section then returns None
(modeled as none) and main's tuple unpacking raises an uncaught TypeError
(mainExit = none), instead of degrading to a reported status with exit 0/1. -/
theorem c2_empty_output_crash :
    run_tool ["bandit", "-r", "a.py", "-f", "txt"] 120
      (SubprocessOutcome.completed "" "" 0) = ("", 0)
    ∧ printScanSection "" 0 = none
    ∧ mainExit [("", 0)] = none := by
  decide

/-- C3, counterexample: two distinct notebook paths that share both the stem
and the immediate parent directory name receive the same temporary extraction
name, so the derivation is not injective over the notebooks of a batch. -/
theorem c3_collision_counterexample :
    (⟨["t", "a", "x"], "nb.ipynb"⟩ : NbPath) ≠ (⟨["t", "b", "x"], "nb.ipynb"⟩ : NbPath)
    ∧ derivedName ⟨["t", "a", "x"], "nb.ipynb"⟩ = derivedName ⟨["t", "b", "x"], "nb.ipynb"⟩ := by
  decide

/-- C3, amended: the derived location depends only on the notebook's stem and
its parent directory's name; two notebooks of a batch receive distinct
locations whenever they share the stem but differ in parent name, or share the
parent name but differ in stem. -/
theorem c3_derived_distinct (p1 p2 : NbPath)
    (h : (pyStem p1.base = pyStem p2.base ∧ parentName p1 ≠ parentName p2)
      ∨ (pyStem p1.base ≠ pyStem p2.base ∧ parentName p1 = parentName p2)) :
    derivedName p1 ≠ derivedName p2 := by
  intro heq
  unfold derivedName at heq
  rcases h with ⟨hs, hp⟩ | ⟨hs, hp⟩
  · rw [hs] at heq
    exact hp (concat_underscore_inj_right _ _ _ heq)
  · rw [hp] at heq
    exact hs (concat_underscore_inj_left _ _ _ heq)

/-- C3, witness: same folder, different stems: distinct extraction names. -/
theorem c3_derived_distinct_witness :
    derivedName ⟨["proj"], "x.ipynb"⟩ ≠ derivedName ⟨["proj"], "y.ipynb"⟩ :=
  c3_derived_distinct ⟨["proj"], "x.ipynb"⟩ ⟨["proj"], "y.ipynb"⟩
    (Or.inr ⟨by decide, rfl⟩)

/-- C7, counterexample: with --full and --python both set, only the Python
category is selected — notebooks, dependencies and models are not scanned,
contradicting "--full scans everything regardless of granular flags". -/
theorem c7_full_counterexample :
    selectCategories true true false false false = (true, false, false, false) := by
  decide

/-- C7, amended: the full flag has no effect on category selection (it is
parsed but never read); all four categories are scanned exactly when no
granular flag is set, which also covers an invocation with --full alone. -/
theorem c7_selection (full python notebooks deps models : Bool) :
    selectCategories full python notebooks deps models =
      selectCategories false python notebooks deps models
    ∧ ((python || notebooks || deps || models) = false →
        selectCategories full python notebooks deps models = (true, true, true, true)) := by
  cases full <;> cases python <;> cases notebooks <;> cases deps <;> cases models <;> decide

/-- C7, witness: --full alone scans all four categories. -/
theorem c7_selection_witness :
    selectCategories true false false false false = (true, true, true, true) :=
  (c7_selection true false false false false).2 rfl

/-- C8: on normal completion run_tool returns the subprocess's real exit code,
and the output is the stripped stdout when nonempty, else the stripped stderr;
stdout takes precedence when both streams have content. -/
theorem c8_completed_output (cmd : List String) (timeout : Nat) (out err : String)
    (rc : Int) :
    (run_tool cmd timeout (SubprocessOutcome.completed out err rc)).2 = rc
    ∧ (pyStrip out ≠ "" →
        (run_tool cmd timeout (SubprocessOutcome.completed out err rc)).1 = pyStrip out)
    ∧ (pyStrip out = "" →
        (run_tool cmd timeout (SubprocessOutcome.completed out err rc)).1 = pyStrip err) := by
  refine ⟨rfl, ?_, ?_⟩
  · intro h
    simp [run_tool, h]
  · intro h
    simp [run_tool, h]

/-- C8, witness: both streams nonempty: the stripped stdout wins and the real
exit code 5 is returned. -/
theorem c8_completed_output_witness :
    (run_tool ["bandit"] 120 (SubprocessOutcome.completed " hello " " oops " 5)).2 = 5
    ∧ (run_tool ["bandit"] 120 (SubprocessOutcome.completed " hello " " oops " 5)).1
        = "hello" := by
  refine ⟨(c8_completed_output ["bandit"] 120 " hello " " oops " 5).1, ?_⟩
  exact ((c8_completed_output ["bandit"] 120 " hello " " oops " 5).2.1
    (by decide)).trans (by decide)

/-- C4: run_tool turns every invocation failure into a (message, -1) result:
a missing executable yields -1 with a message that spells out the executable's
name and a pip-install suggestion, a timeout yields ("timed out", -1), and any
other failure yields a descriptive message with -1. -/
theorem c4_run_tool_failures (name : String) (args : List String) (timeout : Nat) :
    run_tool (name :: args) timeout SubprocessOutcome.fileNotFound =
      ("'" ++ name ++ "' not found. Try: `pip install " ++ name ++ "`", -1)
    ∧ pyContains (run_tool (name :: args) timeout SubprocessOutcome.fileNotFound).1 name
        = true
    ∧ pyContains (run_tool (name :: args) timeout SubprocessOutcome.fileNotFound).1
        "pip install" = true
    ∧ run_tool (name :: args) timeout SubprocessOutcome.timeoutExpired = ("timed out", -1)
    ∧ ∀ m, run_tool (name :: args) timeout (SubprocessOutcome.otherError m) =
        ("unexpected error: " ++ m, -1) := by
  refine ⟨rfl, ?_, ?_, rfl, fun m => rfl⟩
  · show listContains
      ("'" ++ name ++ "' not found. Try: `pip install " ++ name ++ "`").data name.data = true
    simp only [String.data_append, List.append_assoc]
    exact listContains_append_left _ _ _
      (listContains_of_startsWith _ _ (listStartsWith_append_self _ _))
  · show listContains
      ("'" ++ name ++ "' not found. Try: `pip install " ++ name ++ "`").data
      ("pip install").data = true
    have hstr : ("'" ++ name ++ "' not found. Try: `pip install " ++ name ++ "`" : String)
        = ("'" ++ name ++ "' not found. Try: `")
          ++ ("pip install" ++ (" " ++ name ++ "`")) := by
      simp only [strAppend_assoc]
      rfl
    rw [hstr, String.data_append, String.data_append]
    exact listContains_spot _ _ _

/-- C4, witness: evaluation at a concrete missing binary. -/
theorem c4_run_tool_failures_witness :
    run_tool ["bandit"] 120 SubprocessOutcome.fileNotFound =
      ("'bandit' not found. Try: `pip install bandit`", -1)
    ∧ pyContains (run_tool ["bandit"] 120 SubprocessOutcome.fileNotFound).1 "bandit" = true :=
  ⟨(c4_run_tool_failures "bandit" [] 120).1, (c4_run_tool_failures "bandit" [] 120).2.1⟩

/-- C5, counterexample: a notebook whose only cell is a markdown cell with a
non-blank non-comment line does contain such a line (so, as worded, the claim
says conversion should succeed), yet notebook_to_python fails, because only
cells of type "code" are considered. -/
theorem c5_counterexample :
    (notebook_to_python "nb.ipynb"
      (NotebookDoc.doc [⟨"markdown", CellSource.str "x = 1\n"⟩])).isOk = false
    ∧ claimC5FailCond (NotebookDoc.doc [⟨"markdown", CellSource.str "x = 1\n"⟩]) = false := by
  decide

/-- C5, amended: the extractor fails — with the single normalized error kind,
carrying the notebook's name — exactly when the document is unparseable, has
zero cells, or has no cell of type "code" whose normalized source lines include
a non-blank line whose stripped content does not start with "#". -/
theorem c5_error_characterization (name : String) (nb : NotebookDoc) :
    (∃ e, notebook_to_python name nb = Except.error e ∧ e.notebook = name) ↔
      codeFailCond nb = true := by
  cases nb with
  | parseError =>
    constructor
    · intro _; rfl
    · intro _; exact ⟨⟨name, "JSONDecodeError: expecting value"⟩, rfl, rfl⟩
  | doc cells =>
    by_cases hemp : cells.isEmpty = true
    · constructor
      · intro _
        simp [codeFailCond, hemp]
      · intro _
        refine ⟨⟨name, "ValueError: No cells in notebook"⟩, ?_, rfl⟩
        simp [notebook_to_python, hemp]
    · have hempF : cells.isEmpty = false := Bool.eq_false_iff.mpr hemp
      rw [notebook_to_python_of_ne_empty name cells hempF]
      simp only [codeFailCond]
      rw [hempF, Bool.false_or, all_not_eq_not_any]
      by_cases hany : cells.any cellQualifies = true
      · rw [if_pos hany, hany]
        constructor
        · rintro ⟨e, he, -⟩
          exact absurd he (by simp)
        · intro hcontra
          exact absurd hcontra (by simp)
      · have hanyF : cells.any cellQualifies = false := Bool.eq_false_iff.mpr hany
        rw [if_neg hany, hanyF]
        constructor
        · intro _; rfl
        · intro _
          exact ⟨⟨name, "ValueError: No executable code in notebook"⟩, rfl, rfl⟩

/-- C5, witness: the characterization evaluated at a zero-cell notebook. -/
theorem c5_error_characterization_witness :
    codeFailCond (NotebookDoc.doc []) = true
    ∧ ∃ e, notebook_to_python "nb.ipynb" (NotebookDoc.doc []) = Except.error e
        ∧ e.notebook = "nb.ipynb" :=
  ⟨by decide, (c5_error_characterization "nb.ipynb" (NotebookDoc.doc [])).mpr (by decide)⟩

/-- C6: rewriting every cell source from the multi-line-string representation
to the equivalent list-of-lines representation leaves the extractor's result —
success or failure, and the produced bytes — unchanged. -/
theorem c6_representation_invariance (name : String) (nb : NotebookDoc) :
    notebook_to_python name (mapDoc toListRep nb) = notebook_to_python name nb := by
  cases nb with
  | parseError => rfl
  | doc cells =>
    simp only [mapDoc, notebook_to_python, isEmpty_map, convertCells_map_toListRep]

/-- C9: every list discover_targets returns is sorted, duplicate-free and
suffix-correct (with the model list deduplicated across the overlapping
extension globs), and the requirements entry names requirements.txt and is
present only when that file exists directly under the root. -/
theorem c9_discovery (fs : List String) (hfs : fs.Nodup)
    (scan_nb scan_py scan_deps scan_mdl : Bool) :
    goodList (fun p => pyEndswith p ".py")
      (discover_targets fs scan_nb scan_py scan_deps scan_mdl).py_files
    ∧ goodList (fun p => pyEndswith p ".ipynb")
      (discover_targets fs scan_nb scan_py scan_deps scan_mdl).notebooks
    ∧ goodList matchesModelExt
      (discover_targets fs scan_nb scan_py scan_deps scan_mdl).models
    ∧ ∀ r, (discover_targets fs scan_nb scan_py scan_deps scan_mdl).requirements
        = some (some r) → r = "requirements.txt" ∧ r ∈ fs := by
  refine ⟨?_, ?_, ?_, ?_⟩
  · cases scan_py with
    | false => exact trivial
    | true => exact goodList_sortPaths_filter _ fs hfs
  · cases scan_nb with
    | false => exact trivial
    | true => exact goodList_sortPaths_filter _ fs hfs
  · cases scan_mdl with
    | false => exact trivial
    | true => exact goodList_sortPaths_dedup _ fs
  · intro r hr
    cases scan_deps with
    | false => simp [discover_targets] at hr
    | true =>
      simp only [discover_targets, if_true, Option.some.injEq] at hr
      by_cases hmem : "requirements.txt" ∈ fs
      · rw [if_pos hmem] at hr
        obtain rfl : "requirements.txt" = r := Option.some.inj hr
        exact ⟨rfl, hmem⟩
      · rw [if_neg hmem] at hr
        exact absurd hr (by simp)

/-- C9, witness: a small duplicate-free file listing with one file per
category. -/
theorem c9_discovery_witness :
    (["m.pt", "a.py", "n.ipynb", "requirements.txt"] : List String).Nodup
    ∧ goodList (fun p => pyEndswith p ".py")
      (discover_targets ["m.pt", "a.py", "n.ipynb", "requirements.txt"]
        true true true true).py_files :=
  ⟨by decide,
    (c9_discovery ["m.pt", "a.py", "n.ipynb", "requirements.txt"]
      (by decide) true true true true).1⟩

/-- C10: when no notebook of the batch converts to a file above the 30-byte
threshold (in particular when every conversion fails), scan_notebooks reports
status 0, and the category's (output, code) pair — the only parts main keeps,
the error list being discarded — contributes exit code 0, so conversion errors
alone never flag an error or fail the run. -/
theorem c10_conversion_errors_keep_code_zero (batch : List (String × NotebookDoc))
    (toolResult : String × Int) (h : ∀ nb ∈ batch, scannablePred nb = false) :
    (scan_notebooks batch toolResult).2.1 = 0
    ∧ mainExit [((scan_notebooks batch toolResult).1,
        (scan_notebooks batch toolResult).2.1)] = some 0 := by
  have hscan : batch.filter scannablePred = [] := by
    rw [List.filter_eq_nil_iff]
    intro a ha
    simp [h a ha]
  by_cases hb : batch.isEmpty = true
  · unfold scan_notebooks
    rw [if_pos hb]
    exact ⟨rfl, by decide⟩
  · have hres : scan_notebooks batch toolResult =
        if (batch.filterMap conversionErrorOf).isEmpty
        then ("⚠ No executable code in notebooks", 0, [])
        else (pyJoin "\n" ((batch.filterMap conversionErrorOf).map fun err => "⚠ " ++ err),
          0, batch.filterMap conversionErrorOf) := by
      unfold scan_notebooks
      rw [if_neg hb, hscan]
      simp
    by_cases herr : (batch.filterMap conversionErrorOf).isEmpty = true
    · rw [hres, if_pos herr]
      exact ⟨rfl, by decide⟩
    · rw [hres, if_neg herr]
      refine ⟨rfl, ?_⟩
      obtain ⟨e, es, hes⟩ : ∃ e es, batch.filterMap conversionErrorOf = e :: es := by
        cases hx : batch.filterMap conversionErrorOf with
        | nil => rw [hx] at herr; exact absurd rfl herr
        | cons e es => exact ⟨e, es, rfl⟩
      rw [hes]
      have hout : pyJoin "\n" ((e :: es).map fun err => "⚠ " ++ err) ≠ "" := by
        rw [List.map_cons]
        exact pyJoin_ne_empty _ _ _ (append_ne_empty_left "⚠ " e (by decide))
      show mainExit [(pyJoin "\n" ((e :: es).map fun err => "⚠ " ++ err), 0)] = some 0
      unfold mainExit categoriesExit
      rw [printScanSection_of_ne_empty _ _ hout]
      decide

/-- C10, witness: a batch with a single zero-cell notebook (conversion fails):
status 0 and exit contribution 0 even though the tool result carries code 7. -/
theorem c10_conversion_errors_witness :
    (scan_notebooks [("nb.ipynb", NotebookDoc.doc [])] ("out", 7)).2.1 = 0
    ∧ mainExit [((scan_notebooks [("nb.ipynb", NotebookDoc.doc [])] ("out", 7)).1,
        (scan_notebooks [("nb.ipynb", NotebookDoc.doc [])] ("out", 7)).2.1)] = some 0 :=
  c10_conversion_errors_keep_code_zero [("nb.ipynb", NotebookDoc.doc [])] ("out", 7)
    (by decide)

end SanityML
